import Mathlib

/-!
Verification of the MATLAB Engine for Python session/call layer
(`matlab/engine/__init__.py`, `matlab/engine/enginehelper.py`,
`matlab/engine/matlabengine.py`) against its natural-language specification.

The Python code is shallowly embedded: each relevant function becomes an
executable Lean definition over explicit value, state and trace types.
Calls into the native transport module (`pythonengine`) are recorded as
`BoundaryCall` events; `pythonengine.getMessage(id, ...)` is modelled by the
message id string itself.
-/

/-- Python runtime values, at the granularity the engine layer's keyword
validation distinguishes them:
* `int n` — a Python `int`;
* `bool b` — a Python `bool` (`isinstance(b, int)` is `True` in Python,
  reflected by `isInstInt`);
* `str s` — a Python `str`;
* `strStream` — an instance of `io.StringIO` (`sIO.StringIO` in the source);
* `textWriter` — an object offering `write(str) -> None` that is *not* an
  `io.StringIO` instance (e.g. `sys.stdout`);
* `pynone` — Python `None`;
* `obj c` — any other object, tagged with its class name. -/
inductive PyVal where
  | int (n : Int)
  | bool (b : Bool)
  | str (s : String)
  | strStream
  | textWriter
  | pynone
  | obj (className : String)
deriving DecidableEq, Repr

/-- `isinstance(v, int)`; in Python `bool` is a subclass of `int`. -/
def isInstInt : PyVal → Bool
  | .int _ => true
  | .bool _ => true
  | _ => false

/-- `isinstance(v, bool)`. -/
def isInstBool : PyVal → Bool
  | .bool _ => true
  | _ => false

/-- `isinstance(v, str)`. -/
def isInstStr : PyVal → Bool
  | .str _ => true
  | _ => false

/-- `isinstance(v, sIO.StringIO)` — the check `matlabengine.py` applies to the
`stdout`/`stderr` keyword values (lines 56 and 60). Only genuine
`io.StringIO` instances pass; a mere text writer does not. -/
def isStrStream : PyVal → Bool
  | .strStream => true
  | _ => false

/-- The integer value of a Python object in `int` context; `int(True) = 1`. Only
used where the source has already checked `isinstance(v, int)`. -/
def pyIntVal : PyVal → Int
  | .int n => n
  | .bool b => if b then 1 else 0
  | _ => 0

/-- The string payload of a Python `str`; only used after `isinstance(v, str)`. -/
def strVal : PyVal → String
  | .str s => s
  | _ => ""

/-- The boolean value of a Python object; only used where the source has
already checked `isinstance(v, bool)`. -/
def pyBoolVal : PyVal → Bool
  | .bool b => b
  | _ => false

/-- Modelled from the spec: the "text-stream-like capability (write(str) ->
None)" that §4.3 of the specification claims is the acceptance criterion for
`stdout`/`stderr` sinks. Both `io.StringIO` instances and other text writers
(such as `sys.stdout`) have it. Stated from the spec's words so that it can be
compared with the source's `isinstance(v, io.StringIO)` gate (`isStrStream`). -/
def specTextStreamLike : PyVal → Bool
  | .strStream => true
  | .textWriter => true
  | _ => false

/-- Python exceptions raised by the engine layer, carrying the
`pythonengine.getMessage` id. The spec's error taxonomy maps onto these as:
`InvalidArgument` = `typeErr`/`valueErr`, `ConflictingArguments` =
`keyErr "EitherAsyncOrBackground"`, `RejectedExecution` = `rejectedExec`. -/
inductive PyErr where
  | typeErr (msg : String)
  | valueErr (msg : String)
  | keyErr (msg : String)
  | synErr (msg : String)
  | rejectedExec (msg : String)
  | matlabExec (msg : String)
deriving DecidableEq, Repr

/-- The keyword-argument dictionary of a call, split into the keys the engine
layer pops explicitly plus the remaining keyword names (`extra`, in dict
order). `some v` means the key was supplied with value `v` (`some .pynone` is
an explicitly supplied `None`); `none` means the key was absent. -/
structure Kwargs where
  nargout : Option PyVal := none
  stdout : Option PyVal := none
  stderr : Option PyVal := none
  asyn : Option PyVal := none
  background : Option PyVal := none
  extra : List String := []
deriving DecidableEq, Repr

/-- Embedding of `enginehelper._get_async_or_background_argument(kwargs)`
(enginehelper.py lines 6-27), with `sys.version_info` passed in as
`major`/`minor`. `asyn`/`bg` are the values under the keys `"async"` and
`"background"`, `restKeys` the remaining keyword names after the caller's own
pops. Faithful points: the two-keys conflict raises `KeyError` first; an
`"async"` value is type-checked and then, on Python >= 3.7, rejected with
`SyntaxError('AsyncWillDeprecate')`; leftover keys raise
`TypeError('InvalidKwargs', first_key)`. -/
def getAsyncOrBackgroundArgument (major minor : Nat)
    (asyn bg : Option PyVal) (restKeys : List String) : Except PyErr Bool :=
  if asyn.isSome ∧ bg.isSome then
    .error (.keyErr "EitherAsyncOrBackground")
  else
    let step1 : Except PyErr Bool :=
      match asyn with
      | some v =>
          if !isInstBool v then .error (.typeErr "AsyncMustBeBool")
          else if 3 ≤ major ∧ 7 ≤ minor then .error (.synErr "AsyncWillDeprecate")
          else .ok (pyBoolVal v)
      | none => .ok false
    match step1 with
    | .error e => .error e
    | .ok b1 =>
      let step2 : Except PyErr Bool :=
        match bg with
        | some v =>
            if !isInstBool v then .error (.typeErr "BackgroundMustBeBool")
            else .ok (pyBoolVal v)
        | none => .ok b1
      match step2 with
      | .error e => .error e
      | .ok b2 =>
        match restKeys with
        | [] => .ok b2
        | k :: _ => .error (.typeErr ("InvalidKwargs:" ++ k))

/-- The `_supported_versions` set of `__init__.py` line 58. -/
def supportedVersions : List String := ["3_8", "3_9"]

/-- `'{0}_{1}'.format(_ver[0], _ver[1])` of `__init__.py` line 60. -/
def versionStr (major minor : Nat) : String :=
  toString major ++ "_" ++ toString minor

/-- The state owned by a `MatlabEngine` object: `matlab = some tok` iff the key
`"_matlab"` is present in its `__dict__` (`exit` pops it; `_check_matlab`
tests for it). The session token itself is opaque. -/
structure EngineState where
  matlab : Option Unit
deriving DecidableEq, Repr

/-- `MatlabEngine._check_matlab` (matlabengine.py lines 252-253). -/
def checkMatlab (st : EngineState) : Bool :=
  st.matlab.isSome

/-- The liveness test of `MatlabFunc.__validate_engine` and
`MatlabWorkSpace.__validate_engine` (matlabengine.py lines 73-75 and 138-140):
the weak reference may be dead (`ref = none`, the engine object was
collected), or the engine may have been exited (`_check_matlab` false). -/
def validateEngine (ref : Option EngineState) : Bool :=
  match ref with
  | none => false
  | some st => checkMatlab st

/-- The arguments of one `pythonengine.evaluateFunction` boundary call
(matlabengine.py lines 64-66): qualified function name, `nargout`, number of
positional arguments, and the `out=`/`err=` sink values. -/
structure FevalDispatch where
  name : String
  nargout : Int
  args : Nat
  stdout : PyVal
  stderr : PyVal
deriving DecidableEq, Repr

/-- One call into the native `pythonengine` transport module. -/
inductive BoundaryCall where
  | evaluateFunction (d : FevalDispatch)
  | closeMATLAB
  | findMATLAB
deriving DecidableEq, Repr

/-- What a `MatlabFunc.__call__` returns on success: a `FutureResult` wrapping
the dispatched future (background mode) or the unwrapped value obtained from
`result()` (synchronous mode). -/
inductive CallResult where
  | futureResult (d : FevalDispatch)
  | value (v : PyVal)
deriving DecidableEq, Repr

/-- Embedding of `MatlabFunc.__call__` (matlabengine.py lines 39-71), as the
pair (outcome, ordered list of boundary calls made). Control flow in source
order: `__validate_engine`; pop `nargout` (default `1`), `isinstance(int)` and
non-negativity checks; pop `stdout`/`stderr` (default `None`);
`_get_async_or_background_argument`; `isinstance(StringIO)` check on each
supplied sink; then exactly one `evaluateFunction` boundary call, returned
wrapped in a `FutureResult` when `background` is true and otherwise resolved
through `FutureResult(...).result()`.

`resultOf d` is the outcome that blocking `result()` on the dispatched future
yields. Modelled from the spec: the `FutureResult`/`FevalFuture` classes are
not under src/, and §4.2 specifies `result()` as returning the call's value on
success and re-raising the remote error otherwise, so it is passed in as an
oracle the synchronous branch consults. -/
def matlabFuncCall (major minor : Nat) (engineRef : Option EngineState)
    (name : String) (numArgs : Nat) (kw : Kwargs)
    (resultOf : FevalDispatch → Except PyErr PyVal) :
    Except PyErr CallResult × List BoundaryCall :=
  if !validateEngine engineRef then
    (.error (.rejectedExec "MatlabTerminated"), [])
  else
    let nargs : PyVal := kw.nargout.getD (.int 1)
    if !isInstInt nargs then
      (.error (.typeErr "NargoutMustBeInt"), [])
    else if pyIntVal nargs < 0 then
      (.error (.valueErr "NargoutCannotBeLessThanZero"), [])
    else
      let stdoutV : PyVal := kw.stdout.getD .pynone
      let stderrV : PyVal := kw.stderr.getD .pynone
      match getAsyncOrBackgroundArgument major minor kw.asyn kw.background kw.extra with
      | .error e => (.error e, [])
      | .ok background =>
        if stdoutV ≠ .pynone ∧ isStrStream stdoutV = false then
          (.error (.typeErr "StdoutMustBeStringIO"), [])
        else if stderrV ≠ .pynone ∧ isStrStream stderrV = false then
          (.error (.typeErr "StderrMustBeStringIO"), [])
        else
          let d : FevalDispatch :=
            { name := name, nargout := pyIntVal nargs, args := numArgs,
              stdout := stdoutV, stderr := stderrV }
          if background then
            (.ok (.futureResult d), [.evaluateFunction d])
          else
            match resultOf d with
            | .ok v => (.ok (.value v), [.evaluateFunction d])
            | .error e => (.error e, [.evaluateFunction d])

/-- Embedding of `MatlabWorkSpace.__getitem__` (matlabengine.py lines
116-121): `__validate_engine`, then `__validate_identity(attr)`
(`isinstance(attr, str)` then `pythonengine.validateIdentity`, the latter
passed in as an oracle), then a synchronous `MatlabFunc` call of
`matlab.internal.engine.getVariable` with one positional argument and no
keyword arguments. -/
def workspaceGetItem (major minor : Nat) (engineRef : Option EngineState)
    (attr : PyVal) (validIdentity : String → Bool)
    (resultOf : FevalDispatch → Except PyErr PyVal) :
    Except PyErr CallResult × List BoundaryCall :=
  if !validateEngine engineRef then
    (.error (.rejectedExec "MatlabTerminated"), [])
  else if !isInstStr attr then
    (.error (.typeErr "VarNameMustBeStr"), [])
  else if !validIdentity (strVal attr) then
    (.error (.valueErr "VarNameNotValid"), [])
  else
    matlabFuncCall major minor engineRef "matlab.internal.engine.getVariable" 1 {} resultOf

/-- Embedding of `MatlabWorkSpace.__setitem__` (matlabengine.py lines
123-128): same validation as `__getitem__`, then a synchronous `MatlabFunc`
call of `assignin` with three positional arguments (`"base"`, the name, the
value) and `nargout=0`. -/
def workspaceSetItem (major minor : Nat) (engineRef : Option EngineState)
    (attr : PyVal) (validIdentity : String → Bool)
    (resultOf : FevalDispatch → Except PyErr PyVal) :
    Except PyErr CallResult × List BoundaryCall :=
  if !validateEngine engineRef then
    (.error (.rejectedExec "MatlabTerminated"), [])
  else if !isInstStr attr then
    (.error (.typeErr "VarNameMustBeStr"), [])
  else if !validIdentity (strVal attr) then
    (.error (.valueErr "VarNameNotValid"), [])
  else
    matlabFuncCall major minor engineRef "assignin" 3
      { nargout := some (.int 0) } resultOf

/-- Embedding of `MatlabEngine.exit` (matlabengine.py lines 226-233): if
`_check_matlab()`, one `pythonengine.closeMATLAB` boundary call and
`__dict__.pop("_matlab")`; otherwise nothing happens. Returns the new state
and the boundary calls made; the method has no failure outcome. -/
def engineExit (st : EngineState) : EngineState × List BoundaryCall :=
  if checkMatlab st then (⟨none⟩, [.closeMATLAB])
  else (st, [])

/-- `MatlabEngine.quit` (matlabengine.py lines 235-240) just calls `exit`. -/
def engineQuit (st : EngineState) : EngineState × List BoundaryCall :=
  engineExit st

/-- `n` successive calls of `exit()` on the same handle, accumulating the
boundary calls in order. -/
def engineExitN : Nat → EngineState → EngineState × List BoundaryCall
  | 0, st => (st, [])
  | n + 1, st =>
    let s1 := engineExit st
    let s2 := engineExitN n s1.1
    (s2.1, s1.2 ++ s2.2)

/-- The `FutureResult(...)` constructor call that `connect_matlab` dispatches:
either a session launch with a startup option string, or an attach to a named
shared session (`attach=True`). -/
inductive StartRequest where
  | start (option : String)
  | attach (name : String)
deriving DecidableEq, Repr

/-- The launch-vs-attach decision of `connect_matlab` when `name is None`
(`__init__.py` lines 191-197), as a function of the listing that
`find_matlab()` (i.e. `pythonengine.findMATLAB()`) returned: an empty listing
dispatches `FutureResult(option="-r matlab.engine.shareEngine")`, a non-empty
listing dispatches `FutureResult(name=engines[0], attach=True)`. -/
def connectDispatch (engines : List String) : StartRequest :=
  match engines with
  | [] => .start "-r matlab.engine.shareEngine"
  | e :: _ => .attach e

/-- The full dispatch decision of `connect_matlab(name, ...)` (`__init__.py`
lines 188-210): a given `name` is attached directly (no listing query); with
`name is None` the decision is `connectDispatch` of the boundary's listing. -/
def connectMatlabDispatch (name : Option String) (engines : List String) :
    StartRequest :=
  match name with
  | none => connectDispatch engines
  | some n => .attach n

/-- The ordered lock / boundary / blocking events of the `name is None` branch
of `connect_matlab` (`__init__.py` lines 188-203). -/
inductive ConnectEvent where
  | acquireLock
  | queryFindMatlab
  | dispatch (r : StartRequest)
  | waitResult
  | releaseLock
deriving DecidableEq, Repr

/-- Event trace of `connect_matlab(name=None, background)` as written: the
whole body is a `with _engine_lock:` block (line 189) containing the
`find_matlab()` query (line 191), the `FutureResult` dispatch (lines 193-197)
and — when `background` is false — the blocking `future.result()` (line 200);
both branches return from inside the `with` block, so the lock is released
(on block exit) only after the branch's last statement. -/
def connectMatlabTrace (engines : List String) (background : Bool) :
    List ConnectEvent :=
  if background then
    [.acquireLock, .queryFindMatlab, .dispatch (connectDispatch engines),
     .releaseLock]
  else
    [.acquireLock, .queryFindMatlab, .dispatch (connectDispatch engines),
     .waitResult, .releaseLock]

/-! ### Helper lemmas -/

theorem matlabFuncCall_dead (major minor : Nat) (ref : Option EngineState)
    (h : validateEngine ref = false) (name : String) (numArgs : Nat)
    (kw : Kwargs) (resultOf : FevalDispatch → Except PyErr PyVal) :
    matlabFuncCall major minor ref name numArgs kw resultOf
      = (.error (.rejectedExec "MatlabTerminated"), []) := by
  unfold matlabFuncCall
  simp [h]

theorem engineExit_fst (st : EngineState) : (engineExit st).1 = ⟨none⟩ := by
  rcases st with ⟨_ | ⟨⟩⟩ <;> rfl

theorem engineExitN_dead (n : Nat) : engineExitN n ⟨none⟩ = (⟨none⟩, []) := by
  induction n with
  | zero => rfl
  | succ n ih => simp [engineExitN, engineExit, checkMatlab, ih]

/-! ### Claims -/

/-- C1: in `connect_matlab` with `name=None`, the launch-vs-attach decision is
a function of the boundary's shared-session listing alone: an empty listing
dispatches a session start with the shared-sharing option
`"-r matlab.engine.shareEngine"`, a non-empty listing dispatches an attach to
exactly its first element, with no other prioritization. -/
theorem connectMatlab_unnamed_dispatch_decision :
    connectMatlabDispatch none [] = .start "-r matlab.engine.shareEngine"
    ∧ ∀ (e : String) (rest : List String),
        connectMatlabDispatch none (e :: rest) = .attach e :=
  ⟨rfl, fun _ _ => rfl⟩

/-- C2 counterexample: in a synchronous `connect_matlab(name=None)` with an
empty listing, the blocking `future.result()` wait happens strictly before
the lock release — the lock is *not* released as soon as the session-start
`Call` is dispatched, contradicting the claim. -/
theorem connectMatlab_sync_wait_inside_lock :
    connectMatlabTrace [] false
      = [.acquireLock, .queryFindMatlab,
         .dispatch (.start "-r matlab.engine.shareEngine"),
         .waitResult, .releaseLock]
    ∧ ConnectEvent.waitResult ∈
        (connectMatlabTrace [] false).takeWhile
          (fun e => e ≠ ConnectEvent.releaseLock) := by
  constructor
  · rfl
  · decide

/-- C2 amended: the launch lock is held from the listing query through the
dispatch and is released only when `connect_matlab` returns from the `with`
block — immediately after dispatch in background mode, but only after the
blocking `result()` wait in synchronous mode. -/
theorem connectMatlab_lock_trace (engines : List String) :
    connectMatlabTrace engines true
      = [.acquireLock, .queryFindMatlab, .dispatch (connectDispatch engines),
         .releaseLock]
    ∧ connectMatlabTrace engines false
      = [.acquireLock, .queryFindMatlab, .dispatch (connectDispatch engines),
         .waitResult, .releaseLock] :=
  ⟨rfl, rfl⟩

/-- C3: calling `exit()` N times (N ≥ 1) on an `EngineHandle` equals calling
it once: same final state and same boundary-call list, the `closeMATLAB`
boundary call is made at most once, the handle is not live after the first
call, and `quit()` is a strict alias of `exit()`; no call can raise. -/
theorem engineExit_idempotent (st : EngineState) (n : Nat) (h : 1 ≤ n) :
    engineExitN n st = engineExit st
    ∧ checkMatlab (engineExitN n st).1 = false
    ∧ (engineExitN n st).2.length ≤ 1
    ∧ engineQuit st = engineExit st := by
  obtain ⟨m, rfl⟩ : ∃ m, n = m + 1 := ⟨n - 1, (Nat.succ_pred_eq_of_pos h).symm⟩
  rcases st with ⟨_ | ⟨⟩⟩ <;>
    simp [engineExitN, engineExit, engineQuit, checkMatlab, engineExitN_dead]

/-- C3 witness: three `exit()` calls on a live handle behave exactly as one. -/
theorem engineExit_idempotent_witness :
    1 ≤ 3
    ∧ (engineExitN 3 ⟨some ()⟩ = engineExit ⟨some ()⟩
       ∧ checkMatlab (engineExitN 3 ⟨some ()⟩).1 = false
       ∧ (engineExitN 3 ⟨some ()⟩).2.length ≤ 1
       ∧ engineQuit ⟨some ()⟩ = engineExit ⟨some ()⟩) :=
  ⟨by decide, engineExit_idempotent ⟨some ()⟩ 3 (by decide)⟩

/-- C4: on a handle that is not live (weak reference dead or session exited),
every dynamic function call and every workspace get/set fails with
`RejectedExecutionError('MatlabTerminated')` and makes no boundary call. -/
theorem dead_handle_rejects_all (major minor : Nat) (ref : Option EngineState)
    (h : validateEngine ref = false) (name : String) (numArgs : Nat)
    (kw : Kwargs) (attr : PyVal) (validIdentity : String → Bool)
    (resultOf : FevalDispatch → Except PyErr PyVal) :
    matlabFuncCall major minor ref name numArgs kw resultOf
      = (.error (.rejectedExec "MatlabTerminated"), [])
    ∧ workspaceGetItem major minor ref attr validIdentity resultOf
      = (.error (.rejectedExec "MatlabTerminated"), [])
    ∧ workspaceSetItem major minor ref attr validIdentity resultOf
      = (.error (.rejectedExec "MatlabTerminated"), []) := by
  refine ⟨matlabFuncCall_dead major minor ref h name numArgs kw resultOf, ?_, ?_⟩
  · unfold workspaceGetItem
    simp [h]
  · unfold workspaceSetItem
    simp [h]

/-- C4 witness: on an exited handle, a `sqrt` call, a workspace read of `"x"`
and a workspace write of `"x"` are all rejected with no boundary call. -/
theorem dead_handle_rejects_all_witness :
    validateEngine (some ⟨none⟩) = false
    ∧ (matlabFuncCall 3 8 (some ⟨none⟩) "sqrt" 1 {} (fun _ => .ok .pynone)
         = (.error (.rejectedExec "MatlabTerminated"), [])
       ∧ workspaceGetItem 3 8 (some ⟨none⟩) (.str "x") (fun _ => true)
           (fun _ => .ok .pynone)
         = (.error (.rejectedExec "MatlabTerminated"), [])
       ∧ workspaceSetItem 3 8 (some ⟨none⟩) (.str "x") (fun _ => true)
           (fun _ => .ok .pynone)
         = (.error (.rejectedExec "MatlabTerminated"), [])) :=
  ⟨by decide,
   dead_handle_rejects_all 3 8 (some ⟨none⟩) (by decide) "sqrt" 1 {} (.str "x")
     (fun _ => true) (fun _ => .ok .pynone)⟩

/-- C10: the liveness check of `MatlabFunc.__call__` runs before any argument
validation: a call on a dead handle fails with
`RejectedExecutionError('MatlabTerminated')` and makes no boundary call for
*every* keyword set, even one whose `nargout`, sinks and flags are all
invalid — `RejectedExecution` takes precedence over
`InvalidArgument`/`ConflictingArguments`. -/
theorem rejection_precedes_argument_validation (major minor : Nat)
    (ref : Option EngineState) (h : validateEngine ref = false)
    (name : String) (numArgs : Nat) (kw : Kwargs)
    (resultOf : FevalDispatch → Except PyErr PyVal) :
    matlabFuncCall major minor ref name numArgs kw resultOf
      = (.error (.rejectedExec "MatlabTerminated"), []) :=
  matlabFuncCall_dead major minor ref h name numArgs kw resultOf

/-- C10 witness: on a dead handle, a call whose keyword set has a non-integer
`nargout`, a non-StringIO `stdout`, both `async` and `background` flags and a
stray keyword still fails with `RejectedExecution`, not with any of the
argument-validation errors. -/
theorem rejection_precedes_argument_validation_witness :
    validateEngine none = false
    ∧ matlabFuncCall 3 8 none "sqrt" 1
        { nargout := some (.str "bad"), stdout := some .textWriter,
          asyn := some (.bool true), background := some (.bool true),
          extra := ["bogus"] } (fun _ => .ok .pynone)
        = (.error (.rejectedExec "MatlabTerminated"), []) :=
  ⟨by decide,
   rejection_precedes_argument_validation 3 8 none (by decide) "sqrt" 1
     { nargout := some (.str "bad"), stdout := some .textWriter,
       asyn := some (.bool true), background := some (.bool true),
       extra := ["bogus"] } (fun _ => .ok .pynone)⟩

/-- C5: on a live handle and with a well-formed `nargout`, supplying both the
legacy `async` key and the current `background` key fails with
`KeyError('EitherAsyncOrBackground')` (the spec's `ConflictingArguments`) and
no boundary call is made — regardless of the two flag values, of the sink
values and of any stray keywords, since the conflict is checked before those. -/
theorem conflicting_flags_pre_dispatch (major minor : Nat) (st : EngineState)
    (hlive : checkMatlab st = true) (name : String) (numArgs : Nat)
    (kw : Kwargs) (hng : isInstInt (kw.nargout.getD (.int 1)) = true)
    (hng2 : ¬ pyIntVal (kw.nargout.getD (.int 1)) < 0)
    (ha : kw.asyn.isSome) (hb : kw.background.isSome)
    (resultOf : FevalDispatch → Except PyErr PyVal) :
    matlabFuncCall major minor (some st) name numArgs kw resultOf
      = (.error (.keyErr "EitherAsyncOrBackground"), []) := by
  unfold matlabFuncCall getAsyncOrBackgroundArgument
  simp [validateEngine, hlive, hng, hng2, ha, hb]

/-- C5 witness: a live handle, `kwargs = {async: True, background: False}`. -/
theorem conflicting_flags_pre_dispatch_witness :
    checkMatlab ⟨some ()⟩ = true
    ∧ isInstInt (({ asyn := some (.bool true), background := some (.bool false) }
        : Kwargs).nargout.getD (.int 1)) = true
    ∧ ¬ pyIntVal (({ asyn := some (.bool true), background := some (.bool false) }
        : Kwargs).nargout.getD (.int 1)) < 0
    ∧ ({ asyn := some (.bool true), background := some (.bool false) }
        : Kwargs).asyn.isSome
    ∧ ({ asyn := some (.bool true), background := some (.bool false) }
        : Kwargs).background.isSome
    ∧ matlabFuncCall 3 8 (some ⟨some ()⟩) "sqrt" 1
        { asyn := some (.bool true), background := some (.bool false) }
        (fun _ => .ok .pynone)
      = (.error (.keyErr "EitherAsyncOrBackground"), []) :=
  ⟨by decide, by decide, by decide, by decide, by decide,
   conflicting_flags_pre_dispatch 3 8 ⟨some ()⟩ (by decide) "sqrt" 1
     { asyn := some (.bool true), background := some (.bool false) }
     (by decide) (by decide) (by decide) (by decide) (fun _ => .ok .pynone)⟩

/-- C9 counterexample: on Python 3.8 (a supported version), supplying the
legacy `async` key alone with the boolean `True` raises
`SyntaxError('AsyncWillDeprecate')`, while supplying `background=True` is
accepted and selects background execution — the two flags do *not* produce the
same behaviour. -/
theorem async_alone_not_accepted :
    getAsyncOrBackgroundArgument 3 8 (some (.bool true)) none []
      = .error (.synErr "AsyncWillDeprecate")
    ∧ getAsyncOrBackgroundArgument 3 8 none (some (.bool true)) [] = .ok true
    ∧ getAsyncOrBackgroundArgument 3 8 (some (.bool true)) none []
      ≠ getAsyncOrBackgroundArgument 3 8 none (some (.bool true)) [] :=
  ⟨rfl, rfl, fun h => nomatch h⟩

/-- C9 amended: both supported Python versions (3.8 and 3.9) satisfy the
`>= 3.7` test of `enginehelper.py` line 14, so supplying `async` alone with a
boolean value always fails with `SyntaxError('AsyncWillDeprecate')` after the
boolean type check; only the `background` key with a boolean value is accepted
and selects background (`True`) or synchronous (`False`) execution. -/
theorem async_deprecated_on_supported_versions :
    (versionStr 3 8 ∈ supportedVersions ∧ versionStr 3 9 ∈ supportedVersions)
    ∧ (∀ (b : Bool) (rest : List String),
        getAsyncOrBackgroundArgument 3 8 (some (.bool b)) none rest
          = .error (.synErr "AsyncWillDeprecate")
        ∧ getAsyncOrBackgroundArgument 3 9 (some (.bool b)) none rest
          = .error (.synErr "AsyncWillDeprecate"))
    ∧ (∀ b : Bool,
        getAsyncOrBackgroundArgument 3 8 none (some (.bool b)) [] = .ok b
        ∧ getAsyncOrBackgroundArgument 3 9 none (some (.bool b)) [] = .ok b) := by
  refine ⟨by decide, ?_, ?_⟩
  · intro b rest
    exact ⟨rfl, rfl⟩
  · intro b
    exact ⟨rfl, rfl⟩

/-- C6: on a live handle with valid arguments, `background=True` returns
`FutureResult` wrapping the dispatched future immediately — the outcome does
not consult `resultOf`, i.e. there is no blocking wait — while
`background=False` blocks in `result()` and returns the unwrapped value, or
propagates the error, exactly as the dispatched future resolves; in both
cases exactly one `evaluateFunction` boundary call is made. -/
theorem background_returns_future_sync_unwraps (major minor : Nat)
    (st : EngineState) (hlive : checkMatlab st = true)
    (name : String) (numArgs : Nat) (k : Int) (hk : 0 ≤ k) (so se : PyVal)
    (hso : so = .pynone ∨ isStrStream so = true)
    (hse : se = .pynone ∨ isStrStream se = true)
    (resultOf : FevalDispatch → Except PyErr PyVal) :
    matlabFuncCall major minor (some st) name numArgs
        { nargout := some (.int k), stdout := some so, stderr := some se,
          background := some (.bool true) } resultOf
      = (.ok (.futureResult ⟨name, k, numArgs, so, se⟩),
         [.evaluateFunction ⟨name, k, numArgs, so, se⟩])
    ∧ matlabFuncCall major minor (some st) name numArgs
        { nargout := some (.int k), stdout := some so, stderr := some se,
          background := some (.bool false) } resultOf
      = ((resultOf ⟨name, k, numArgs, so, se⟩).map CallResult.value,
         [.evaluateFunction ⟨name, k, numArgs, so, se⟩]) := by
  have hso' : so = .pynone ∨ so = .strStream := by
    cases so <;> simp_all [isStrStream]
  have hse' : se = .pynone ∨ se = .strStream := by
    cases se <;> simp_all [isStrStream]
  have hk' : ¬ k < 0 := Int.not_lt.mpr hk
  constructor
  · rcases hso' with rfl | rfl <;> rcases hse' with rfl | rfl <;>
      simp [matlabFuncCall, getAsyncOrBackgroundArgument, validateEngine,
        hlive, hk', isInstInt, pyIntVal, isInstBool, pyBoolVal, isStrStream]
  · rcases hso' with rfl | rfl <;> rcases hse' with rfl | rfl <;>
      (simp [matlabFuncCall, getAsyncOrBackgroundArgument, validateEngine,
         hlive, hk', isInstInt, pyIntVal, isInstBool, pyBoolVal, isStrStream];
       split <;> simp_all [Except.map])

/-- C6 witness: live handle, `sqrt` with `nargout=1`, both sinks `None`;
background mode wraps the dispatch, synchronous mode unwraps `2.0`. -/
theorem background_returns_future_sync_unwraps_witness :
    checkMatlab ⟨some ()⟩ = true
    ∧ (0 : Int) ≤ 1
    ∧ ((.pynone : PyVal) = .pynone ∨ isStrStream .pynone = true)
    ∧ (matlabFuncCall 3 8 (some ⟨some ()⟩) "sqrt" 1
         { nargout := some (.int 1), stdout := some .pynone,
           stderr := some .pynone, background := some (.bool true) }
         (fun _ => .ok (.int 2))
       = (.ok (.futureResult ⟨"sqrt", 1, 1, .pynone, .pynone⟩),
          [.evaluateFunction ⟨"sqrt", 1, 1, .pynone, .pynone⟩])
       ∧ matlabFuncCall 3 8 (some ⟨some ()⟩) "sqrt" 1
           { nargout := some (.int 1), stdout := some .pynone,
             stderr := some .pynone, background := some (.bool false) }
           (fun _ => .ok (.int 2))
         = (((fun _ => .ok (.int 2) : FevalDispatch → Except PyErr PyVal)
              ⟨"sqrt", 1, 1, .pynone, .pynone⟩).map CallResult.value,
            [.evaluateFunction ⟨"sqrt", 1, 1, .pynone, .pynone⟩])) :=
  ⟨by decide, by decide, Or.inl rfl,
   background_returns_future_sync_unwraps 3 8 ⟨some ()⟩ (by decide) "sqrt" 1 1
     (by decide) .pynone .pynone (Or.inl rfl) (Or.inl rfl)
     (fun _ => .ok (.int 2))⟩

/-- C7: on a live handle, (a) when `nargout` is absent every dispatched
boundary call carries `nargout = 1`; (b) a `nargout` value that is not a
Python `int` fails with `TypeError('NargoutMustBeInt')` before any boundary
call; (c) a negative integer `nargout` fails with
`ValueError('NargoutCannotBeLessThanZero')` before any boundary call. -/
theorem nargout_default_and_validation (major minor : Nat) (st : EngineState)
    (hlive : checkMatlab st = true) (name : String) (numArgs : Nat)
    (resultOf : FevalDispatch → Except PyErr PyVal) :
    (∀ (kw : Kwargs), kw.nargout = none →
      ∀ d : FevalDispatch,
        BoundaryCall.evaluateFunction d
          ∈ (matlabFuncCall major minor (some st) name numArgs kw resultOf).2 →
        d.nargout = 1)
    ∧ (∀ (kw : Kwargs) (v : PyVal), kw.nargout = some v → isInstInt v = false →
        matlabFuncCall major minor (some st) name numArgs kw resultOf
          = (.error (.typeErr "NargoutMustBeInt"), []))
    ∧ (∀ (kw : Kwargs) (n : Int), kw.nargout = some (.int n) → n < 0 →
        matlabFuncCall major minor (some st) name numArgs kw resultOf
          = (.error (.valueErr "NargoutCannotBeLessThanZero"), [])) := by
  refine ⟨?_, ?_, ?_⟩
  · intro kw hkw d hd
    unfold matlabFuncCall at hd
    simp [validateEngine, hlive, hkw, isInstInt, pyIntVal] at hd
    split at hd
    · simp at hd
    · split at hd
      · simp at hd
      · split at hd
        · simp at hd
        · split at hd
          · simp_all
          · split at hd <;> simp_all
  · intro kw v hkw hv
    unfold matlabFuncCall
    simp [validateEngine, hlive, hkw, hv]
  · intro kw n hkw hn
    unfold matlabFuncCall
    simp [validateEngine, hlive, hkw, isInstInt, pyIntVal, hn]

/-- C7 witness: live handle; `nargout` absent dispatches with `1` (checked on
the concrete trace); `nargout="two"` and `nargout=-1` are refused locally. -/
theorem nargout_default_and_validation_witness :
    checkMatlab ⟨some ()⟩ = true
    ∧ ({ nargout := some (.str "two") } : Kwargs).nargout = some (.str "two")
    ∧ isInstInt (.str "two") = false
    ∧ matlabFuncCall 3 8 (some ⟨some ()⟩) "sqrt" 1
        { nargout := some (.str "two") } (fun _ => .ok .pynone)
      = (.error (.typeErr "NargoutMustBeInt"), [])
    ∧ matlabFuncCall 3 8 (some ⟨some ()⟩) "sqrt" 1
        { nargout := some (.int (-1)) } (fun _ => .ok .pynone)
      = (.error (.valueErr "NargoutCannotBeLessThanZero"), [])
    ∧ (∀ d : FevalDispatch,
        BoundaryCall.evaluateFunction d
          ∈ (matlabFuncCall 3 8 (some ⟨some ()⟩) "sqrt" 1 {}
              (fun _ => .ok .pynone)).2 →
        d.nargout = 1) :=
  ⟨by decide, rfl, by decide,
   (nargout_default_and_validation 3 8 ⟨some ()⟩ (by decide) "sqrt" 1
      (fun _ => .ok .pynone)).2.1 { nargout := some (.str "two") }
      (.str "two") rfl (by decide),
   (nargout_default_and_validation 3 8 ⟨some ()⟩ (by decide) "sqrt" 1
      (fun _ => .ok .pynone)).2.2 { nargout := some (.int (-1)) } (-1) rfl
      (by decide),
   (nargout_default_and_validation 3 8 ⟨some ()⟩ (by decide) "sqrt" 1
      (fun _ => .ok .pynone)).1 {} rfl⟩

/-- C8 counterexample: a sink that satisfies the spec's text-stream-like
capability (`write(str) -> None`) but is not an `io.StringIO` instance —
e.g. `sys.stdout` — is *rejected* by a call on a live handle with
`TypeError('StdoutMustBeStringIO')` (and likewise for `stderr`), refuting
"any supplied sink satisfying that capability is accepted". -/
theorem text_capable_sink_rejected :
    specTextStreamLike .textWriter = true
    ∧ matlabFuncCall 3 8 (some ⟨some ()⟩) "sqrt" 1
        { stdout := some .textWriter } (fun _ => .ok .pynone)
      = (.error (.typeErr "StdoutMustBeStringIO"), [])
    ∧ matlabFuncCall 3 8 (some ⟨some ()⟩) "sqrt" 1
        { stderr := some .textWriter } (fun _ => .ok .pynone)
      = (.error (.typeErr "StderrMustBeStringIO"), []) :=
  ⟨rfl, rfl, rfl⟩

/-- C8 amended: a supplied (non-`None`) `stdout` or `stderr` sink is accepted
if and only if it is an instance of `io.StringIO` (`isinstance(v,
sIO.StringIO)`): any other object — text-stream-like or not — fails with
`TypeError('StdoutMustBeStringIO')`/`TypeError('StderrMustBeStringIO')`
before any boundary call, while an `io.StringIO` sink is passed through to
the dispatched boundary call. -/
theorem sink_gate_is_stringio_instance (major minor : Nat) (st : EngineState)
    (hlive : checkMatlab st = true) (name : String) (numArgs : Nat)
    (v : PyVal) (hv : v ≠ .pynone)
    (resultOf : FevalDispatch → Except PyErr PyVal) :
    (isStrStream v = false →
      matlabFuncCall major minor (some st) name numArgs
          { stdout := some v } resultOf
        = (.error (.typeErr "StdoutMustBeStringIO"), [])
      ∧ matlabFuncCall major minor (some st) name numArgs
          { stderr := some v } resultOf
        = (.error (.typeErr "StderrMustBeStringIO"), []))
    ∧ (isStrStream v = true →
      (matlabFuncCall major minor (some st) name numArgs
          { stdout := some v } resultOf).2
        = [.evaluateFunction ⟨name, 1, numArgs, v, .pynone⟩]
      ∧ (matlabFuncCall major minor (some st) name numArgs
          { stderr := some v } resultOf).2
        = [.evaluateFunction ⟨name, 1, numArgs, .pynone, v⟩]) := by
  constructor
  · intro hnot
    constructor <;>
      (unfold matlabFuncCall getAsyncOrBackgroundArgument;
       simp [validateEngine, hlive, isInstInt, pyIntVal, hv, hnot])
  · intro hyes
    have hveq : v = .strStream := by
      cases v <;> simp_all [isStrStream]
    subst hveq
    constructor <;>
      (unfold matlabFuncCall getAsyncOrBackgroundArgument;
       simp [validateEngine, hlive, isInstInt, pyIntVal, isStrStream];
       split <;> simp)

/-- C8 amended witness: on a live handle, `sys.stdout`-like sinks are refused
and `io.StringIO` sinks are dispatched, for both `stdout` and `stderr`. -/
theorem sink_gate_is_stringio_instance_witness :
    checkMatlab ⟨some ()⟩ = true
    ∧ (PyVal.textWriter ≠ .pynone)
    ∧ (PyVal.strStream ≠ .pynone)
    ∧ (isStrStream .textWriter = false →
        matlabFuncCall 3 8 (some ⟨some ()⟩) "disp" 1
            { stdout := some .textWriter } (fun _ => .ok .pynone)
          = (.error (.typeErr "StdoutMustBeStringIO"), [])
        ∧ matlabFuncCall 3 8 (some ⟨some ()⟩) "disp" 1
            { stderr := some .textWriter } (fun _ => .ok .pynone)
          = (.error (.typeErr "StderrMustBeStringIO"), []))
    ∧ (isStrStream .strStream = true →
        (matlabFuncCall 3 8 (some ⟨some ()⟩) "disp" 1
            { stdout := some .strStream } (fun _ => .ok .pynone)).2
          = [.evaluateFunction ⟨"disp", 1, 1, .strStream, .pynone⟩]
        ∧ (matlabFuncCall 3 8 (some ⟨some ()⟩) "disp" 1
            { stderr := some .strStream } (fun _ => .ok .pynone)).2
          = [.evaluateFunction ⟨"disp", 1, 1, .pynone, .strStream⟩]) :=
  ⟨by decide, by decide, by decide,
   (sink_gate_is_stringio_instance 3 8 ⟨some ()⟩ (by decide) "disp" 1
      .textWriter (by decide) (fun _ => .ok .pynone)).1,
   (sink_gate_is_stringio_instance 3 8 ⟨some ()⟩ (by decide) "disp" 1
      .strStream (by decide) (fun _ => .ok .pynone)).2⟩
